import Mathlib

/-!
Verification of the drag-and-drop column-selector core and the criterion
autocomplete source of the trial-curator UI.

The drag-session interpreter lives in the `PragmaticDndWrapper` component:
its monitor `onDrop` handler classifies a completed drop into one of the
operations reorder / insert / move, or into no operation.  The handler is a
pure function of the current `selectedColumns` list, the drag payload
(`source.data`) and the first resolved drop target
(`location.current.dropTargets[0]`); the value it passes to the host's
`onDragEnd` callback is the classification result.  We embed that handler,
the `reorder` array helper, and the splice-based insert computation, plus
the autocomplete completion source over its static keyword table.

Conventions of the embedding:
- JavaScript arrays are Lean lists; `Array.prototype.splice` is modelled by
  the `spliceRemoved` / `spliceRest` / `spliceInsert` helpers (the argument
  shapes used by this code only);
- `Array.prototype.indexOf` is `jsIndexOf`, returning an `Int` (`-1` when
  the element is absent), as in JavaScript;
- `s.replace('draggable-', '')` (string pattern, hence first occurrence
  only) is `stripId`;
- the handler can throw a `TypeError` (reading `.id` of a descriptor that
  has none while `type` claims an item); throwing is modelled by
  `Except.error`, a normal return by `Except.ok`;
- the truthiness test `if (destinationData.zoneId)` is false both for an
  absent `zoneId` and for the empty string, as in JavaScript.
-/

namespace TrialCurator

/-- `DragData` (part_004 lines 10-14): payload attached to a drag source. -/
structure DragData where
  id : String
  sourceZone : String
  type : String

deriving instance DecidableEq for DragData

/-- `DropTargetData` (part_004 lines 16-21): data attached to the resolved
drop target; every field is optional in the TypeScript interface. -/
structure DropTargetData where
  id : Option String
  type : Option String
  sourceZone : Option String
  zoneId : Option String

deriving instance DecidableEq for DropTargetData

/-- `DragEndPayload` (part_004 lines 23-30): the value delivered to the
host's `onDragEnd` callback.  Its fields are exactly these six; there is no
field carrying a column collection. -/
structure DragEndPayload where
  type : String
  column : String
  oldIndex : Option Int
  newIndex : Option Int
  source : Option String
  destinationIndex : Option Int

deriving instance DecidableEq for DragEndPayload

/-- The elements removed by `l.splice(start, count)` (JavaScript clamps
`start` to the length; `take` and `drop` clamp the same way). -/
def spliceRemoved (l : List α) (start count : Nat) : List α :=
  (l.drop start).take count

/-- The array left behind by `l.splice(start, count)`. -/
def spliceRest (l : List α) (start count : Nat) : List α :=
  l.take start ++ l.drop (start + count)

/-- `l.splice(start, 0, ...items)`: the array with `items` inserted at
`start` (clamped to the length). -/
def spliceInsert (l : List α) (start : Nat) (items : List α) : List α :=
  l.take start ++ items ++ l.drop start

/-- `reorder` (part_004 lines 32-37): copy the list, remove the element at
`startIndex`, re-insert it at `finishIndex`. -/
def reorder (list : List α) (startIndex finishIndex : Nat) : List α :=
  let result := list
  let removed := spliceRemoved result startIndex 1
  let rest := spliceRest result startIndex 1
  spliceInsert rest finishIndex removed

/-- `Array.prototype.indexOf`: index of the first occurrence, `-1` when the
element does not occur. -/
def jsIndexOf (x : String) : List String → Int
  | [] => -1
  | a :: l =>
    if a = x then 0
    else if jsIndexOf x l = -1 then -1 else jsIndexOf x l + 1

/-- Does `pat` occur at the head of the second list. -/
def leadsWith : List Char → List Char → Bool
  | [], _ => true
  | _ :: _, [] => false
  | p :: ps, c :: cs => p = c && leadsWith ps cs

/-- Remove the first occurrence of `pat` (JavaScript `s.replace(pat, '')`
with a string pattern replaces only the first occurrence). -/
def removeFirst (pat : List Char) : List Char → List Char
  | [] => []
  | c :: cs =>
    if leadsWith pat (c :: cs) then (c :: cs).drop pat.length
    else c :: removeFirst pat cs

/-- part_004 lines 239 / 242: `id.replace('draggable-', '')`. -/
def stripId (s : String) : String :=
  String.mk (removeFirst "draggable-".toList s.toList)

/-- Lines 249-253: the would-be selected list computed by the reorder branch
(the handler computes it and then discards it; it is not part of the
payload). -/
def reorderedColumns (selectedColumns : List String) (oldIndex newIndex : Int) :
    List String :=
  reorder selectedColumns oldIndex.toNat newIndex.toNat

/-- Lines 267-268: `newSelectedColumns = [...selectedColumns];
newSelectedColumns.splice(targetIndex, 0, columnName)` — the would-be
selected list of the insert branch (also computed and discarded). -/
def newSelectedColumns (selectedColumns : List String) (columnName : String)
    (targetIndex : Int) : List String :=
  spliceInsert selectedColumns targetIndex.toNat [columnName]

/-- Lines 244-278: the item-level rules of the handler, applicable once the
target descriptor's `type` is `'sortable-item'`.  Returns `some payload`
exactly when one of the two guarded branches fires its `return`. -/
def itemOutcome (selectedColumns : List String)
    (columnName sourceZone targetColumn : String) : Option DragEndPayload :=
  if sourceZone = "selected" ∧ targetColumn ≠ columnName then
    let oldIndex := jsIndexOf columnName selectedColumns
    let newIndex := jsIndexOf targetColumn selectedColumns
    if oldIndex ≠ -1 ∧ newIndex ≠ -1 then
      some { type := "reorder", column := columnName, oldIndex := some oldIndex,
             newIndex := some newIndex, source := none, destinationIndex := none }
    else none
  else if sourceZone = "available" then
    let targetIndex := jsIndexOf targetColumn selectedColumns
    if targetIndex ≠ -1 then
      some { type := "insert", column := columnName, oldIndex := none,
             newIndex := none, source := some sourceZone,
             destinationIndex := some targetIndex }
    else none
  else none

/-- Lines 281-287: the zone-level fallback `if (destinationData.zoneId)`;
JavaScript truthiness makes both an absent and an empty `zoneId` fail the
test. -/
def zoneOutcome (columnName sourceZone : String) (zoneId : Option String) :
    Option DragEndPayload :=
  match zoneId with
  | some z =>
    if z = "" then none
    else some { type := "move", column := columnName, oldIndex := none,
                newIndex := none, source := some sourceZone,
                destinationIndex := none }
  | none => none

/-- part_004 lines 230-288: the monitor's `onDrop` handler.  `destination`
is `location.current.dropTargets[0]` (`none` when the pointer was released
over no registered target).  `Except.ok r` means the handler returned
normally and `r` is the payload passed to `onDragEnd` (`none` when
`onDragEnd` was not invoked); `Except.error` models the `TypeError` thrown
by `destinationData.id.replace` when `id` is absent. -/
def onDrop (selectedColumns : List String) (sourceData : DragData)
    (destination : Option DropTargetData) :
    Except String (Option DragEndPayload) :=
  match destination with
  | none => Except.ok none
  | some destinationData =>
    let sourceId := sourceData.id
    let sourceZone := sourceData.sourceZone
    let columnName := stripId sourceId
    if destinationData.type = some "sortable-item" then
      match destinationData.id with
      | none => Except.error "TypeError: destinationData.id is undefined"
      | some targetId =>
        let targetColumn := stripId targetId
        match itemOutcome selectedColumns columnName sourceZone targetColumn with
        | some payload => Except.ok (some payload)
        | none => Except.ok (zoneOutcome columnName sourceZone destinationData.zoneId)
    else
      Except.ok (zoneOutcome columnName sourceZone destinationData.zoneId)

/-- A drop-target descriptor as actually produced by this component's drop
targets: an item descriptor (lines 74, 141) always carries an `id` alongside
`type = 'sortable-item'`; a zone descriptor (line 190) has neither. -/
def wellFormedTarget (d : DropTargetData) : Prop :=
  d.type = some "sortable-item" → d.id ≠ none

/-- Modelled from the spec: the host applies a delivered operation to its
authoritative `selected` list.  The would-be list is determined by the
payload's indices together with the input list (it is not itself part of
the payload). -/
def recomputeSelected (sel : List String) (p : DragEndPayload) :
    Option (List String) :=
  if p.type = "reorder" then
    match p.oldIndex, p.newIndex with
    | some i, some j => some (reorder sel i.toNat j.toNat)
    | _, _ => none
  else if p.type = "insert" then
    match p.destinationIndex with
    | some t => some (spliceInsert sel t.toNat [p.column])
    | _ => none
  else none

/-- A heap of JavaScript arrays: cell `r` of the store holds the array value
currently referenced by `r`.  Used to state that the handler's computations
mutate only freshly allocated copies, never the input collection. -/
abbrev Store (α : Type) : Type := List (List α)

/-- The array a reference denotes (absent references denote `[]`). -/
def readAt (σ : Store α) (r : Nat) : List α :=
  σ.getD r []

/-- `Array.from(list)` and `[...list]`: allocate a fresh cell holding a copy
of the array at `r`; returns the new store and the fresh reference. -/
def arrayFrom (σ : Store α) (r : Nat) : Store α × Nat :=
  (σ ++ [σ.getD r []], σ.length)

/-- `arr.splice(start, del, ...items)` mutating cell `r` in place; returns
the updated store and the removed elements. -/
def spliceAt (σ : Store α) (r : Nat) (start del : Nat) (items : List α) :
    Store α × List α :=
  let arr := σ.getD r []
  (σ.set r (arr.take start ++ items ++ arr.drop (start + del)),
   spliceRemoved arr start del)

/-- `reorder` (lines 32-37) at the store level: `result = Array.from(list)`
allocates a copy, and both `splice` calls mutate that copy. -/
def reorderSt (σ : Store α) (listRef : Nat) (startIndex finishIndex : Nat) :
    Store α × Nat :=
  let alloc := arrayFrom σ listRef
  let σ1 := alloc.1
  let resultRef := alloc.2
  let firstSplice := spliceAt σ1 resultRef startIndex 1 []
  let σ2 := firstSplice.1
  let removed := firstSplice.2
  let σ3 := (spliceAt σ2 resultRef finishIndex 0 removed).1
  (σ3, resultRef)

/-- Lines 267-268 at the store level: `newSelectedColumns =
[...selectedColumns]` allocates a copy and the `splice` mutates the copy. -/
def insertSt (σ : Store α) (selRef : Nat) (targetIndex : Nat)
    (columnName : α) : Store α × Nat :=
  let alloc := arrayFrom σ selRef
  let σ1 := alloc.1
  let newRef := alloc.2
  ((spliceAt σ1 newRef targetIndex 0 [columnName]).1, newRef)

/-- A keyword suggestion (criterion-autocomplete.js lines 4-38). -/
structure Completion where
  label : String
  type : String

deriving instance DecidableEq for Completion

/-- The static keyword table (criterion-autocomplete.js lines 4-38). -/
def keywords : List Completion :=
  [ { label := "Age", type := "function" },
    { label := "Sex", type := "function" },
    { label := "LabValue", type := "function" },
    { label := "PrimaryTumor", type := "function" },
    { label := "Histology", type := "function" },
    { label := "MolecularBiomarker", type := "function" },
    { label := "GeneAlteration", type := "function" },
    { label := "MolecularSignature", type := "function" },
    { label := "DiagnosticFinding", type := "function" },
    { label := "Metastases", type := "function" },
    { label := "Comorbidity", type := "function" },
    { label := "PriorTreatment", type := "function" },
    { label := "CurrentTreatment", type := "function" },
    { label := "TreatmentOption", type := "function" },
    { label := "Contraindication", type := "function" },
    { label := "ClinicalJudgement", type := "function" },
    { label := "ReproductiveStatus", type := "function" },
    { label := "Infection", type := "function" },
    { label := "Symptom", type := "function" },
    { label := "PerformanceStatus", type := "function" },
    { label := "LifeExpectancy", type := "function" },
    { label := "RequiredAction", type := "function" },
    { label := "TissueAvailability", type := "function" },
    { label := "Other", type := "function" },
    { label := "And", type := "function" },
    { label := "Or", type := "function" },
    { label := "Not", type := "function" },
    { label := "If", type := "function" },
    { label := "Timing", type := "function" },
    { label := "description", type := "property" },
    { label := "finding", type := "property" },
    { label := "method", type := "property" },
    { label := "treatment", type := "property" } ]

/-- The value of `context.matchBefore(/\w*/)`: the span of word characters
directly before the cursor (`fromPos` / `toPos` stand for the source's
`from` / `to` fields, `from` being reserved in Lean). -/
structure MatchedText where
  fromPos : Nat
  toPos : Nat

deriving instance DecidableEq for MatchedText

/-- The part of the CodeMirror `CompletionContext` the source reads:
the result of `matchBefore(/\w*/)` and the `explicit` flag. -/
structure CompletionContext where
  wordBefore : Option MatchedText
  explicit : Bool

deriving instance DecidableEq for CompletionContext

/-- A CodeMirror `CompletionResult`; `validFor` holds the source text of
the regular expression literal. -/
structure CompletionResult where
  fromPos : Nat
  options : List Completion
  validFor : String

deriving instance DecidableEq for CompletionResult

/-- `myCompletionSource` (criterion-autocomplete.js lines 40-51). -/
def myCompletionSource (context : CompletionContext) : Option CompletionResult :=
  match context.wordBefore with
  | none => none
  | some word =>
    if word.fromPos = word.toPos ∧ context.explicit = false then none
    else some { fromPos := word.fromPos, options := keywords,
                validFor := "^\\w*$" }

/-! ### Basic facts about the embedded primitives -/

/-- `jsIndexOf` either reports absence or the index of an occurrence. -/
theorem jsIndexOf_spec (x : String) :
    ∀ l : List String,
      jsIndexOf x l = -1 ∨ ∃ n : Nat, jsIndexOf x l = (n : Int) ∧ l[n]? = some x := by
  intro l
  induction l with
  | nil => exact Or.inl rfl
  | cons a l ih =>
    by_cases h : a = x
    · exact Or.inr ⟨0, by simp [jsIndexOf, h], by simp [h]⟩
    · rcases ih with h1 | ⟨n, hn, hg⟩
      · exact Or.inl (by simp [jsIndexOf, h, h1])
      · refine Or.inr ⟨n + 1, ?_, by simpa using hg⟩
        have hne : jsIndexOf x l ≠ -1 := by rw [hn]; omega
        simp [jsIndexOf, h, hne, hn]

/-- An index reported by `jsIndexOf` points at the element searched for. -/
theorem jsIndexOf_found {x : String} {l : List String} {n : Nat}
    (h : jsIndexOf x l = (n : Int)) : l[n]? = some x := by
  rcases jsIndexOf_spec x l with h1 | ⟨m, hm, hg⟩
  · rw [h1] at h; omega
  · have hmn : m = n := by rw [hm] at h; exact_mod_cast h
    rw [← hmn]; exact hg

/-- An index reported by `jsIndexOf` is in range. -/
theorem jsIndexOf_found_lt {x : String} {l : List String} {n : Nat}
    (h : jsIndexOf x l = (n : Int)) : n < l.length := by
  rcases List.getElem?_eq_some.mp (jsIndexOf_found h) with ⟨hlt, _⟩
  exact hlt

/-- The single-element removal shape of `splice` used by `reorder`. -/
theorem spliceRemoved_one {l : List α} {i : Nat} (h : i < l.length) :
    spliceRemoved l i 1 = [l[i]] := by
  unfold spliceRemoved
  rw [← List.getElem_cons_drop l i h]
  rfl

/-- What `splice` leaves behind after a single-element removal is
`eraseIdx`. -/
theorem spliceRest_one (l : List α) (i : Nat) :
    spliceRest l i 1 = l.eraseIdx i := by
  unfold spliceRest
  rw [List.eraseIdx_eq_take_drop_succ]

/-- `reorder` in take/append/drop form, for an in-range start index. -/
theorem reorder_eq_take_drop {l : List α} {i : Nat} (j : Nat) (h : i < l.length) :
    reorder l i j =
      (l.eraseIdx i).take j ++ [l[i]] ++ (l.eraseIdx i).drop j := by
  simp only [reorder, spliceInsert]
  rw [spliceRemoved_one h, spliceRest_one]

/-- `insertIdx` in take/append/drop form, for an in-range position. -/
theorem insertIdx_eq_take_cons_drop (a : α) :
    ∀ (n : Nat) (l : List α), n ≤ l.length →
      l.insertIdx n a = l.take n ++ a :: l.drop n := by
  intro n
  induction n with
  | zero => intro l _; simp [List.insertIdx_zero]
  | succ n ih =>
    intro l hl
    cases l with
    | nil => simp at hl
    | cons hd tl =>
      rw [List.insertIdx_succ_cons, List.take_succ_cons, List.drop_succ_cons,
        List.cons_append, ih tl (by simpa using hl)]

/-- `reorder` with an in-range start index is an `eraseIdx` followed by an
`insertIdx`. -/
theorem reorder_eq_insertIdx {l : List α} {i j : Nat} (hi : i < l.length)
    (hj : j < l.length) :
    reorder l i j = (l.eraseIdx i).insertIdx j l[i] := by
  have hjle : j ≤ (l.eraseIdx i).length := by
    rw [List.length_eraseIdx]
    simp only [hi, if_pos]
    omega
  rw [reorder_eq_take_drop j hi, insertIdx_eq_take_cons_drop _ j _ hjle,
    List.append_assoc]
  rfl

/-- Every list is a permutation of any of its elements consed onto the list
with that occurrence erased. -/
theorem perm_cons_eraseIdx_self {l : List α} {i : Nat} (h : i < l.length) :
    l.Perm (l[i] :: l.eraseIdx i) := by
  conv_lhs => rw [← List.take_append_drop i l, ← List.getElem_cons_drop l i h]
  rw [List.eraseIdx_eq_take_drop_succ]
  exact List.perm_middle

/-- `reorder` at in-range indices permutes the list. -/
theorem reorder_perm {l : List α} {i j : Nat} (hi : i < l.length)
    (hj : j < l.length) : (reorder l i j).Perm l := by
  have hjle : j ≤ (l.eraseIdx i).length := by
    rw [List.length_eraseIdx]
    simp only [hi, if_pos]
    omega
  rw [reorder_eq_insertIdx hi hj]
  exact (List.perm_insertIdx _ _ hjle).trans (perm_cons_eraseIdx_self hi).symm

/-- The moved element lands at the finish index. -/
theorem reorder_getElem_finish {l : List α} {i j : Nat} (hi : i < l.length)
    (hj : j < l.length) : (reorder l i j)[j]? = some l[i] := by
  have hjle : j ≤ (l.eraseIdx i).length := by
    rw [List.length_eraseIdx]
    simp only [hi, if_pos]
    omega
  have htk : ((l.eraseIdx i).take j).length = j := by
    rw [List.length_take]
    omega
  rw [reorder_eq_take_drop j hi,
    @List.getElem?_append_left _ ((l.eraseIdx i).take j ++ [l[i]]) _ _
      (by simp [htk]),
    List.getElem?_append_right (by omega : ((l.eraseIdx i).take j).length ≤ j),
    htk]
  simp

/-- Erasing the moved element from the result recovers the input with the
moved element erased: all other elements keep their relative order. -/
theorem reorder_eraseIdx {l : List α} {i j : Nat} (hi : i < l.length)
    (hj : j < l.length) :
    (reorder l i j).eraseIdx j = l.eraseIdx i := by
  rw [reorder_eq_insertIdx hi hj, List.eraseIdx_insertIdx]

/-- Moving an element onto its own position is the identity. -/
theorem reorder_self {l : List α} {i : Nat} (hi : i < l.length) :
    reorder l i i = l := by
  have hlen : (l.take i).length = i := by
    rw [List.length_take]
    omega
  rw [reorder_eq_take_drop i hi, List.eraseIdx_eq_take_drop_succ,
    List.take_left' hlen, List.drop_left' hlen, List.append_assoc,
    List.singleton_append, List.getElem_cons_drop l i hi,
    List.take_append_drop]

/-! ### Positional facts about the splice-based insert -/

/-- Length of the insert-branch result. -/
theorem spliceInsert_length (l : List α) (t : Nat) (c : α) :
    (spliceInsert l t [c]).length = l.length + 1 := by
  simp [spliceInsert, List.length_append, List.length_take, List.length_drop]
  omega

/-- The inserted element occupies the target index. -/
theorem spliceInsert_getElem_self {l : List α} {t : Nat} (c : α)
    (ht : t ≤ l.length) : (spliceInsert l t [c])[t]? = some c := by
  have htk : (l.take t).length = t := by
    rw [List.length_take]
    omega
  rw [spliceInsert, @List.getElem?_append_left _ (l.take t ++ [c]) _ _
      (by simp [htk]),
    List.getElem?_append_right (by omega : (l.take t).length ≤ t), htk]
  simp

/-- Elements strictly before the target index are untouched. -/
theorem spliceInsert_getElem_lt {l : List α} {t k : Nat} (c : α)
    (ht : t ≤ l.length) (hk : k < t) : (spliceInsert l t [c])[k]? = l[k]? := by
  have hk1 : k < (l.take t).length := by
    rw [List.length_take]
    omega
  rw [spliceInsert, @List.getElem?_append_left _ (l.take t ++ [c]) _ _
      (by simp [List.length_take]; omega),
    List.getElem?_append_left hk1, List.getElem?_take]
  simp [hk]

/-- Elements at or after the target index shift right by one. -/
theorem spliceInsert_getElem_ge {l : List α} {t k : Nat} (c : α)
    (ht : t ≤ l.length) (hk : t ≤ k) :
    (spliceInsert l t [c])[k + 1]? = l[k]? := by
  have htk : (l.take t).length = t := by
    rw [List.length_take]
    omega
  rw [spliceInsert, @List.getElem?_append_right _ (l.take t ++ [c]) _ _
      (by simp [htk]; omega)]
  simp only [List.length_append, htk, List.length_singleton]
  rw [List.getElem?_drop]
  congr 1
  omega

/-- Inserting adds exactly one occurrence of the inserted element. -/
theorem spliceInsert_count [BEq α] [LawfulBEq α] (l : List α) (t : Nat) (c : α) :
    (spliceInsert l t [c]).count c = l.count c + 1 := by
  have hsplit : (l.take t).count c + (l.drop t).count c = l.count c := by
    rw [← List.count_append, List.take_append_drop]
  rw [spliceInsert, List.count_append, List.count_append]
  simp only [List.count_singleton, BEq.refl, if_pos]
  omega

/-! ### Evaluation lemmas for the classifier -/

/-- The reorder branch fires when the drag comes from `selected`, the two
stripped ids differ, and both occur in the selected list. -/
theorem itemOutcome_reorder {sel : List String} {c t : String} {i j : Nat}
    (hne : t ≠ c) (hi : jsIndexOf c sel = (i : Int))
    (hj : jsIndexOf t sel = (j : Int)) :
    itemOutcome sel c "selected" t =
      some { type := "reorder", column := c, oldIndex := some (i : Int),
             newIndex := some (j : Int), source := none,
             destinationIndex := none } := by
  have h1 : (i : Int) ≠ -1 := by omega
  have h2 : (j : Int) ≠ -1 := by omega
  simp [itemOutcome, hi, hj, hne, h1, h2]

/-- The insert branch fires when the drag comes from `available` and the
stripped target id occurs in the selected list. -/
theorem itemOutcome_insert {sel : List String} {c t : String} {tIdx : Nat}
    (ht : jsIndexOf t sel = (tIdx : Int)) :
    itemOutcome sel c "available" t =
      some { type := "insert", column := c, oldIndex := none, newIndex := none,
             source := some "available", destinationIndex := some (tIdx : Int) } := by
  have h1 : (tIdx : Int) ≠ -1 := by omega
  simp [itemOutcome, ht, h1]

/-- A self-drop from `selected` falls through both item-level branches. -/
theorem itemOutcome_self (sel : List String) (c : String) :
    itemOutcome sel c "selected" c = none := by
  simp [itemOutcome]

/-- A failed lookup aborts the reorder branch: if either `indexOf` returns
not-found, the item-level rules emit nothing. -/
theorem itemOutcome_fail_selected {sel : List String} {c t : String}
    (hne : t ≠ c)
    (h : jsIndexOf c sel = -1 ∨ jsIndexOf t sel = -1) :
    itemOutcome sel c "selected" t = none := by
  rcases h with h | h <;> simp [itemOutcome, hne, h]

/-- A failed lookup aborts the insert branch: if the target column is not
found in `selected`, the item-level rules emit nothing. -/
theorem itemOutcome_fail_available {sel : List String} {c t : String}
    (h : jsIndexOf t sel = -1) :
    itemOutcome sel c "available" t = none := by
  simp [itemOutcome, h]

/-- Every payload the item-level rules emit is a reorder or an insert. -/
theorem itemOutcome_type {sel : List String} {c z t : String}
    {p : DragEndPayload} (h : itemOutcome sel c z t = some p) :
    p.type = "reorder" ∨ p.type = "insert" := by
  simp only [itemOutcome] at h
  split_ifs at h
  all_goals injection h with h'
  all_goals subst h'
  all_goals first
    | exact Or.inl rfl
    | exact Or.inr rfl

/-- The zone fallback fires on a non-empty `zoneId`. -/
theorem zoneOutcome_move {c z zid : String} (h : zid ≠ "") :
    zoneOutcome c z (some zid) =
      some { type := "move", column := c, oldIndex := none, newIndex := none,
             source := some z, destinationIndex := none } := by
  simp only [zoneOutcome]
  rw [if_neg h]

/-- Every payload the zone fallback emits is a move. -/
theorem zoneOutcome_type {c z : String} {zid : Option String}
    {p : DragEndPayload} (h : zoneOutcome c z zid = some p) : p.type = "move" := by
  cases zid with
  | none => exact absurd h (by simp [zoneOutcome])
  | some s =>
    simp only [zoneOutcome] at h
    split_ifs at h
    all_goals injection h with h'
    all_goals subst h'
    all_goals rfl

/-- The handler on an item-typed target whose item-level rules fire. -/
theorem onDrop_item_some {sel : List String} {src : DragData} {tid : String}
    {dsz zid : Option String} {p : DragEndPayload}
    (h : itemOutcome sel (stripId src.id) src.sourceZone (stripId tid) = some p) :
    onDrop sel src (some { id := some tid, type := some "sortable-item",
                           sourceZone := dsz, zoneId := zid }) =
      Except.ok (some p) := by
  simp only [onDrop]
  rw [if_pos trivial]
  simp only [h]

/-- The handler on an item-typed target whose item-level rules fall
through: the zone check decides. -/
theorem onDrop_item_none {sel : List String} {src : DragData} {tid : String}
    {dsz zid : Option String}
    (h : itemOutcome sel (stripId src.id) src.sourceZone (stripId tid) = none) :
    onDrop sel src (some { id := some tid, type := some "sortable-item",
                           sourceZone := dsz, zoneId := zid }) =
      Except.ok (zoneOutcome (stripId src.id) src.sourceZone zid) := by
  simp only [onDrop]
  rw [if_pos trivial]
  simp only [h]

/-- The handler on a target that is not item-typed: the zone check
decides. -/
theorem onDrop_nonitem {sel : List String} {src : DragData}
    {did : Option String} {dtype : Option String} {dsz zid : Option String}
    (h : dtype ≠ some "sortable-item") :
    onDrop sel src (some { id := did, type := dtype, sourceZone := dsz,
                           zoneId := zid }) =
      Except.ok (zoneOutcome (stripId src.id) src.sourceZone zid) := by
  simp only [onDrop]
  rw [if_neg h]

/-! ### Store lemmas -/

/-- Appending a fresh cell does not change existing cells. -/
theorem readAt_append_one {σ : Store α} {v : List α} {r : Nat}
    (hr : r < σ.length) : readAt (σ ++ [v]) r = readAt σ r := by
  simp [readAt, List.getD_eq_getElem?_getD, List.getElem?_append_left hr]

/-- The fresh cell holds the allocated value. -/
theorem readAt_append_self (σ : Store α) (v : List α) :
    readAt (σ ++ [v]) σ.length = v := by
  simp [readAt, List.getD_eq_getElem?_getD, List.getElem?_concat_length]

/-- Reading a cell just written. -/
theorem readAt_set_self {σ : Store α} {k : Nat} (hk : k < σ.length)
    (v : List α) : readAt (σ.set k v) k = v := by
  simp [readAt, List.getD_eq_getElem?_getD, List.getElem?_set_self hk]

/-- Writing one cell does not change another. -/
theorem readAt_set_ne {σ : Store α} {k r : Nat} (h : k ≠ r) (v : List α) :
    readAt (σ.set k v) r = readAt σ r := by
  simp [readAt, List.getD_eq_getElem?_getD, List.getElem?_set_ne h]

/-! ### The claims -/

/-- C1: for every drop from `selected` onto a distinct item of `selected`
(both stripped ids occurring in the list, at `oldIndex` and `newIndex`),
the classifier emits `reorder(columnName, oldIndex, newIndex)`, and the
computed result — remove at `oldIndex`, re-insert at `newIndex` — is a
permutation of the input in which the dragged column occupies the target
column's original position and all other elements keep their relative
order. -/
theorem c1_reorder_drop (sel : List String) (src : DragData) (tid : String)
    (dsz : Option String) (i j : Nat)
    (hz : src.sourceZone = "selected")
    (hne : stripId tid ≠ stripId src.id)
    (hi : jsIndexOf (stripId src.id) sel = (i : Int))
    (hj : jsIndexOf (stripId tid) sel = (j : Int)) :
    onDrop sel src (some { id := some tid, type := some "sortable-item",
                           sourceZone := dsz, zoneId := none }) =
      Except.ok (some { type := "reorder", column := stripId src.id,
                        oldIndex := some (i : Int), newIndex := some (j : Int),
                        source := none, destinationIndex := none })
    ∧ sel[i]? = some (stripId src.id)
    ∧ sel[j]? = some (stripId tid)
    ∧ reorderedColumns sel (i : Int) (j : Int) = reorder sel i j
    ∧ (reorder sel i j).Perm sel
    ∧ (reorder sel i j)[j]? = some (stripId src.id)
    ∧ (reorder sel i j).eraseIdx j = sel.eraseIdx i := by
  have hilt := jsIndexOf_found_lt hi
  have hjlt := jsIndexOf_found_lt hj
  have hisel := jsIndexOf_found hi
  refine ⟨?_, hisel, jsIndexOf_found hj, ?_, reorder_perm hilt hjlt, ?_,
    reorder_eraseIdx hilt hjlt⟩
  · have hio : itemOutcome sel (stripId src.id) src.sourceZone (stripId tid) =
        some { type := "reorder", column := stripId src.id,
               oldIndex := some (i : Int), newIndex := some (j : Int),
               source := none, destinationIndex := none } := by
      rw [hz]
      exact itemOutcome_reorder hne hi hj
    exact onDrop_item_some hio
  · simp [reorderedColumns, Int.toNat_natCast]
  · rcases List.getElem?_eq_some.mp hisel with ⟨hlt2, heq⟩
    rw [reorder_getElem_finish hilt hjlt, heq]

/-- C1 witness: `selected = [A,B,C]`, dragging `B` onto `A` yields
`reorder(B, 1, 0)` and the computed result is `[B,A,C]`. -/
theorem c1_witness :
    stripId "draggable-A" ≠ stripId "draggable-B"
    ∧ reorder ["A", "B", "C"] 1 0 = ["B", "A", "C"]
    ∧ (onDrop ["A", "B", "C"]
          { id := "draggable-B", sourceZone := "selected", type := "sortable-item" }
          (some { id := some "draggable-A", type := some "sortable-item",
                  sourceZone := some "selected", zoneId := none }) =
        Except.ok (some { type := "reorder", column := stripId "draggable-B",
                          oldIndex := some ((1 : Nat) : Int),
                          newIndex := some ((0 : Nat) : Int),
                          source := none, destinationIndex := none })
      ∧ ["A", "B", "C"][(1 : Nat)]? = some (stripId "draggable-B")
      ∧ ["A", "B", "C"][(0 : Nat)]? = some (stripId "draggable-A")
      ∧ reorderedColumns ["A", "B", "C"] ((1 : Nat) : Int) ((0 : Nat) : Int) =
          reorder ["A", "B", "C"] 1 0
      ∧ (reorder ["A", "B", "C"] 1 0).Perm ["A", "B", "C"]
      ∧ (reorder ["A", "B", "C"] 1 0)[(0 : Nat)]? = some (stripId "draggable-B")
      ∧ (reorder ["A", "B", "C"] 1 0).eraseIdx 0 = ["A", "B", "C"].eraseIdx 1) :=
  ⟨by decide, by decide,
   c1_reorder_drop ["A", "B", "C"]
     { id := "draggable-B", sourceZone := "selected", type := "sortable-item" }
     "draggable-A" (some "selected") 1 0 rfl (by decide) (by decide) (by decide)⟩

/-- C2: for every drop from `available` onto an item of `selected` whose
stripped id sits at `targetIndex`, with the dragged column absent from
`selected`, the classifier emits `insert(columnName, available,
targetIndex)` and the computed result is the input with the column spliced
in at `targetIndex`: one longer, the column sits exactly once at
`targetIndex`, earlier elements are untouched, and the previous occupant
and everything after it shift right by one. -/
theorem c2_insert_drop (sel : List String) (src : DragData) (tid : String)
    (dsz : Option String) (t : Nat)
    (hz : src.sourceZone = "available")
    (hnm : stripId src.id ∉ sel)
    (ht : jsIndexOf (stripId tid) sel = (t : Int)) :
    onDrop sel src (some { id := some tid, type := some "sortable-item",
                           sourceZone := dsz, zoneId := none }) =
      Except.ok (some { type := "insert", column := stripId src.id,
                        oldIndex := none, newIndex := none,
                        source := some "available",
                        destinationIndex := some (t : Int) })
    ∧ sel[t]? = some (stripId tid)
    ∧ newSelectedColumns sel (stripId src.id) (t : Int) =
        spliceInsert sel t [stripId src.id]
    ∧ (spliceInsert sel t [stripId src.id]).length = sel.length + 1
    ∧ (spliceInsert sel t [stripId src.id])[t]? = some (stripId src.id)
    ∧ (spliceInsert sel t [stripId src.id]).count (stripId src.id) = 1
    ∧ (∀ k, k < t → (spliceInsert sel t [stripId src.id])[k]? = sel[k]?)
    ∧ (∀ k, t ≤ k → (spliceInsert sel t [stripId src.id])[k + 1]? = sel[k]?) := by
  have htlt := jsIndexOf_found_lt ht
  have htle : t ≤ sel.length := Nat.le_of_lt htlt
  refine ⟨?_, jsIndexOf_found ht, ?_, spliceInsert_length sel t _,
    spliceInsert_getElem_self _ htle, ?_,
    fun k hk => spliceInsert_getElem_lt _ htle hk,
    fun k hk => spliceInsert_getElem_ge _ htle hk⟩
  · have hio : itemOutcome sel (stripId src.id) src.sourceZone (stripId tid) =
        some { type := "insert", column := stripId src.id, oldIndex := none,
               newIndex := none, source := some "available",
               destinationIndex := some (t : Int) } := by
      rw [hz]
      exact itemOutcome_insert ht
    exact onDrop_item_some hio
  · simp [newSelectedColumns, Int.toNat_natCast]
  · rw [spliceInsert_count, List.count_eq_zero.mpr hnm]

/-- C2 witness: `selected = [A,B,C]`, dragging `D` from `available` onto
`B` yields `insert(D, available, 1)` and the computed result is
`[A,D,B,C]`. -/
theorem c2_witness :
    stripId "draggable-D" ∉ ["A", "B", "C"]
    ∧ spliceInsert ["A", "B", "C"] 1 [stripId "draggable-D"] = ["A", "D", "B", "C"]
    ∧ (onDrop ["A", "B", "C"]
          { id := "draggable-D", sourceZone := "available", type := "draggable-item" }
          (some { id := some "draggable-B", type := some "sortable-item",
                  sourceZone := some "selected", zoneId := none }) =
        Except.ok (some { type := "insert", column := stripId "draggable-D",
                          oldIndex := none, newIndex := none,
                          source := some "available",
                          destinationIndex := some ((1 : Nat) : Int) })
      ∧ ["A", "B", "C"][(1 : Nat)]? = some (stripId "draggable-B")
      ∧ newSelectedColumns ["A", "B", "C"] (stripId "draggable-D") ((1 : Nat) : Int) =
          spliceInsert ["A", "B", "C"] 1 [stripId "draggable-D"]
      ∧ (spliceInsert ["A", "B", "C"] 1 [stripId "draggable-D"]).length =
          ["A", "B", "C"].length + 1
      ∧ (spliceInsert ["A", "B", "C"] 1 [stripId "draggable-D"])[(1 : Nat)]? =
          some (stripId "draggable-D")
      ∧ (spliceInsert ["A", "B", "C"] 1 [stripId "draggable-D"]).count
          (stripId "draggable-D") = 1
      ∧ (∀ k, k < 1 →
          (spliceInsert ["A", "B", "C"] 1 [stripId "draggable-D"])[k]? =
            ["A", "B", "C"][k]?)
      ∧ (∀ k, 1 ≤ k →
          (spliceInsert ["A", "B", "C"] 1 [stripId "draggable-D"])[k + 1]? =
            ["A", "B", "C"][k]?)) :=
  ⟨by decide, by decide,
   c2_insert_drop ["A", "B", "C"]
     { id := "draggable-D", sourceZone := "available", type := "draggable-item" }
     "draggable-B" (some "selected") 1 rfl (by decide) (by decide)⟩

/-- C5: dropping an item from `selected` onto the item with the same
stripped id (an item-typed descriptor without `zoneId`) emits no operation;
the classifier is a pure function of its inputs, so the selected collection
referenced by the host is the unchanged input. -/
theorem c5_self_drop (sel : List String) (src : DragData) (tid : String)
    (dsz : Option String)
    (hz : src.sourceZone = "selected")
    (heq : stripId tid = stripId src.id) :
    onDrop sel src (some { id := some tid, type := some "sortable-item",
                           sourceZone := dsz, zoneId := none }) =
      Except.ok none := by
  have hio : itemOutcome sel (stripId src.id) src.sourceZone (stripId tid) =
      none := by
    rw [hz, heq]
    exact itemOutcome_self sel (stripId src.id)
  rw [onDrop_item_none hio]
  rfl

/-- C5 witness: dropping `A` from `selected` onto itself is a no-op. -/
theorem c5_witness :
    stripId "draggable-A" = stripId "draggable-A"
    ∧ onDrop ["A", "B"]
        { id := "draggable-A", sourceZone := "selected", type := "sortable-item" }
        (some { id := some "draggable-A", type := some "sortable-item",
                sourceZone := some "selected", zoneId := none }) =
      Except.ok none :=
  ⟨rfl,
   c5_self_drop ["A", "B"]
     { id := "draggable-A", sourceZone := "selected", type := "sortable-item" }
     "draggable-A" (some "selected") rfl rfl⟩

/-- C9: at in-range indices, `reorder list i i` is the identity, and
`reorder` preserves length and the multiset of elements (it permutes the
list). -/
theorem c9_reorder_algebra {α : Type} (l : List α) (i j : Nat)
    (hi : i < l.length) (hj : j < l.length) :
    reorder l i i = l
    ∧ (reorder l i j).length = l.length
    ∧ (reorder l i j).Perm l :=
  ⟨reorder_self hi, (reorder_perm hi hj).length_eq, reorder_perm hi hj⟩

/-- C9 witness at `[10, 20, 30]`, `i = 1`, `j = 2`. -/
theorem c9_witness :
    1 < ([10, 20, 30] : List Nat).length
    ∧ (reorder ([10, 20, 30] : List Nat) 1 1 = [10, 20, 30]
      ∧ (reorder ([10, 20, 30] : List Nat) 1 2).length = ([10, 20, 30] : List Nat).length
      ∧ (reorder ([10, 20, 30] : List Nat) 1 2).Perm [10, 20, 30]) :=
  ⟨by decide, c9_reorder_algebra [10, 20, 30] 1 2 (by decide) (by decide)⟩

/-- C10: the insert branch never checks that the dragged column is absent
from `selected`: when it is already present, the classifier still emits
`insert`, and the computed result contains the column at least twice —
uniqueness relies on the host-enforced disjointness of the two zones. -/
theorem c10_duplicate_insert (sel : List String) (src : DragData)
    (tid : String) (dsz : Option String) (t : Nat)
    (hz : src.sourceZone = "available")
    (hmem : stripId src.id ∈ sel)
    (ht : jsIndexOf (stripId tid) sel = (t : Int)) :
    onDrop sel src (some { id := some tid, type := some "sortable-item",
                           sourceZone := dsz, zoneId := none }) =
      Except.ok (some { type := "insert", column := stripId src.id,
                        oldIndex := none, newIndex := none,
                        source := some "available",
                        destinationIndex := some (t : Int) })
    ∧ newSelectedColumns sel (stripId src.id) (t : Int) =
        spliceInsert sel t [stripId src.id]
    ∧ 2 ≤ (spliceInsert sel t [stripId src.id]).count (stripId src.id) := by
  refine ⟨?_, by simp [newSelectedColumns, Int.toNat_natCast], ?_⟩
  · have hio : itemOutcome sel (stripId src.id) src.sourceZone (stripId tid) =
        some { type := "insert", column := stripId src.id, oldIndex := none,
               newIndex := none, source := some "available",
               destinationIndex := some (t : Int) } := by
      rw [hz]
      exact itemOutcome_insert ht
    exact onDrop_item_some hio
  · have hpos := List.count_pos_iff.mpr hmem
    rw [spliceInsert_count]
    omega

/-- C10 witness: `A` is already selected, dragging `A` from `available`
onto `B` still inserts, and the computed result `[A,A,B]` holds `A`
twice. -/
theorem c10_witness :
    stripId "draggable-A" ∈ ["A", "B"]
    ∧ spliceInsert ["A", "B"] 1 [stripId "draggable-A"] = ["A", "A", "B"]
    ∧ (onDrop ["A", "B"]
          { id := "draggable-A", sourceZone := "available", type := "draggable-item" }
          (some { id := some "draggable-B", type := some "sortable-item",
                  sourceZone := some "selected", zoneId := none }) =
        Except.ok (some { type := "insert", column := stripId "draggable-A",
                          oldIndex := none, newIndex := none,
                          source := some "available",
                          destinationIndex := some ((1 : Nat) : Int) })
      ∧ newSelectedColumns ["A", "B"] (stripId "draggable-A") ((1 : Nat) : Int) =
          spliceInsert ["A", "B"] 1 [stripId "draggable-A"]
      ∧ 2 ≤ (spliceInsert ["A", "B"] 1 [stripId "draggable-A"]).count
          (stripId "draggable-A")) :=
  ⟨by decide, by decide,
   c10_duplicate_insert ["A", "B"]
     { id := "draggable-A", sourceZone := "available", type := "draggable-item" }
     "draggable-B" (some "selected") 1 rfl (by decide) (by decide)⟩

/-- C3 (amended): on every input whose resolved target descriptor is
well-formed — item-typed descriptors carry an id, as every descriptor this
component's drop targets produce does — the handler is total: it returns
normally with either no operation or exactly one of reorder / insert /
move; an unresolved drop target always yields no operation; and on an
item-typed descriptor without a `zoneId` (the only item-descriptor shape
this component produces) every lookup failure and identifier mismatch —
`indexOf` not finding the dragged or the target column in the reorder
branch, a self-drop where both ids strip to the same column, or `indexOf`
not finding the target column in the insert branch — degrades to no
operation, the classifier being a pure function of its inputs.  (On a
malformed descriptor the handler throws, see the counterexample; a failed
item-level branch beside a non-empty `zoneId` falls through to move, see
the C6 development.) -/
theorem c3_total (sel : List String) (src : DragData)
    (dest : Option DropTargetData)
    (hwf : ∀ d, dest = some d → wellFormedTarget d) :
    (∃ r, onDrop sel src dest = Except.ok r ∧
      (r = none ∨ ∃ p, r = some p ∧
        (p.type = "reorder" ∨ p.type = "insert" ∨ p.type = "move")))
    ∧ (dest = none → onDrop sel src dest = Except.ok none)
    ∧ (∀ tid dsz2,
        (src.sourceZone = "selected" ∧ stripId tid ≠ stripId src.id ∧
          (jsIndexOf (stripId src.id) sel = -1 ∨
            jsIndexOf (stripId tid) sel = -1))
        ∨ (src.sourceZone = "selected" ∧ stripId tid = stripId src.id)
        ∨ (src.sourceZone = "available" ∧ jsIndexOf (stripId tid) sel = -1) →
        onDrop sel src (some { id := some tid, type := some "sortable-item",
                               sourceZone := dsz2, zoneId := none }) =
          Except.ok none) := by
  refine ⟨?_, ?_, ?_⟩
  · cases dest with
    | none => exact ⟨none, rfl, Or.inl rfl⟩
    | some d =>
      by_cases htype : d.type = some "sortable-item"
      · have hid := hwf d rfl htype
        cases hdid : d.id with
        | none => exact absurd hdid hid
        | some tid =>
          cases hio : itemOutcome sel (stripId src.id) src.sourceZone
              (stripId tid) with
          | some p =>
            refine ⟨some p, ?_, Or.inr ⟨p, rfl, ?_⟩⟩
            · simp only [onDrop]
              rw [if_pos htype, hdid]
              simp only [hio]
            · rcases itemOutcome_type hio with h | h
              · exact Or.inl h
              · exact Or.inr (Or.inl h)
          | none =>
            cases hzo : zoneOutcome (stripId src.id) src.sourceZone d.zoneId with
            | none =>
              refine ⟨none, ?_, Or.inl rfl⟩
              simp only [onDrop]
              rw [if_pos htype, hdid]
              simp only [hio, hzo]
            | some p =>
              refine ⟨some p, ?_,
                Or.inr ⟨p, rfl, Or.inr (Or.inr (zoneOutcome_type hzo))⟩⟩
              simp only [onDrop]
              rw [if_pos htype, hdid]
              simp only [hio, hzo]
      · cases hzo : zoneOutcome (stripId src.id) src.sourceZone d.zoneId with
        | none =>
          refine ⟨none, ?_, Or.inl rfl⟩
          simp only [onDrop]
          rw [if_neg htype, hzo]
        | some p =>
          refine ⟨some p, ?_,
            Or.inr ⟨p, rfl, Or.inr (Or.inr (zoneOutcome_type hzo))⟩⟩
          simp only [onDrop]
          rw [if_neg htype, hzo]
  · intro hdest
    subst hdest
    rfl
  · intro tid dsz2 hcase
    have hio : itemOutcome sel (stripId src.id) src.sourceZone (stripId tid) =
        none := by
      rcases hcase with ⟨hz, hne, hlf⟩ | ⟨hz, heq⟩ | ⟨hz, hlf⟩
      · rw [hz]
        exact itemOutcome_fail_selected hne hlf
      · rw [hz, heq]
        exact itemOutcome_self sel (stripId src.id)
      · rw [hz]
        exact itemOutcome_fail_available hlf
    rw [onDrop_item_none hio]
    rfl

/-- C3 witness: a well-formed zone descriptor is classified without error,
and a failed lookup (dragged column `X` absent from `selected`) on a
`zoneId`-free item descriptor degrades to no operation. -/
theorem c3_witness :
    ((∃ r, onDrop ["A"]
        { id := "draggable-X", sourceZone := "selected", type := "sortable-item" }
        (some { id := none, type := none, sourceZone := none,
                zoneId := some "selected-droppable" }) = Except.ok r ∧
      (r = none ∨ ∃ p, r = some p ∧
        (p.type = "reorder" ∨ p.type = "insert" ∨ p.type = "move")))
    ∧ ((some { id := none, type := none, sourceZone := none,
               zoneId := some "selected-droppable" } :
          Option DropTargetData) = none →
        onDrop ["A"]
          { id := "draggable-X", sourceZone := "selected", type := "sortable-item" }
          (some { id := none, type := none, sourceZone := none,
                  zoneId := some "selected-droppable" }) = Except.ok none)
    ∧ (∀ tid dsz2,
        (("selected" : String) = "selected" ∧
          stripId tid ≠ stripId "draggable-X" ∧
          (jsIndexOf (stripId "draggable-X") ["A"] = -1 ∨
            jsIndexOf (stripId tid) ["A"] = -1))
        ∨ (("selected" : String) = "selected" ∧
          stripId tid = stripId "draggable-X")
        ∨ (("selected" : String) = "available" ∧
          jsIndexOf (stripId tid) ["A"] = -1) →
        onDrop ["A"]
          { id := "draggable-X", sourceZone := "selected", type := "sortable-item" }
          (some { id := some tid, type := some "sortable-item",
                  sourceZone := dsz2, zoneId := none }) =
          Except.ok none))
    ∧ onDrop ["A"]
        { id := "draggable-X", sourceZone := "selected", type := "sortable-item" }
        (some { id := some "draggable-A", type := some "sortable-item",
                sourceZone := some "selected", zoneId := none }) =
      Except.ok none :=
  ⟨c3_total ["A"]
    { id := "draggable-X", sourceZone := "selected", type := "sortable-item" }
    (some { id := none, type := none, sourceZone := none,
            zoneId := some "selected-droppable" })
    (fun d h => by
      injection h with h'
      subst h'
      intro htype
      exact absurd htype (by decide)),
   (c3_total ["A"]
     { id := "draggable-X", sourceZone := "selected", type := "sortable-item" }
     (some { id := none, type := none, sourceZone := none,
             zoneId := some "selected-droppable" })
     (fun d h => by
       injection h with h'
       subst h'
       intro htype
       exact absurd htype (by decide))).2.2
     "draggable-A" (some "selected")
     (Or.inl ⟨rfl, by decide, Or.inl (by decide)⟩)⟩

/-- C3 counterexample: the claim quantifies over every input, but on a
descriptor whose `type` claims an item while `id` is absent the handler
dereferences the missing id and throws instead of classifying. -/
theorem c3_counterexample :
    onDrop ["A"]
      { id := "draggable-A", sourceZone := "selected", type := "sortable-item" }
      (some { id := none, type := some "sortable-item", sourceZone := none,
              zoneId := some "selected-droppable" }) =
      Except.error "TypeError: destinationData.id is undefined" := rfl

/-- C4 counterexample: the delivered payload does not contain the would-be
resulting collection — two different selected lists produce the very same
payload while their computed would-be results differ, so no component of
the payload can be that collection. -/
theorem c4_counterexample :
    onDrop ["A", "B", "C"]
        { id := "draggable-B", sourceZone := "selected", type := "sortable-item" }
        (some { id := some "draggable-A", type := some "sortable-item",
                sourceZone := some "selected", zoneId := none }) =
      onDrop ["A", "B", "D"]
        { id := "draggable-B", sourceZone := "selected", type := "sortable-item" }
        (some { id := some "draggable-A", type := some "sortable-item",
                sourceZone := some "selected", zoneId := none })
    ∧ reorderedColumns ["A", "B", "C"] 1 0 ≠ reorderedColumns ["A", "B", "D"] 1 0 :=
  ⟨rfl, by decide⟩

/-- C4 (amended): for reorder and insert classifications the delivered
payload is exactly the operation descriptor — type, column and indices,
with every other field `none` and no collection field — and the would-be
selected collection, computed and then discarded by the handler, is
recoverable by the host from that payload together with the input list. -/
theorem c4_payload_descriptor_only (sel : List String) (src : DragData)
    (tid : String) (dsz : Option String) (i j t : Nat) :
    (src.sourceZone = "selected" → stripId tid ≠ stripId src.id →
      jsIndexOf (stripId src.id) sel = (i : Int) →
      jsIndexOf (stripId tid) sel = (j : Int) →
      onDrop sel src (some { id := some tid, type := some "sortable-item",
                             sourceZone := dsz, zoneId := none }) =
        Except.ok (some { type := "reorder", column := stripId src.id,
                          oldIndex := some (i : Int),
                          newIndex := some (j : Int),
                          source := none, destinationIndex := none })
      ∧ recomputeSelected sel
          { type := "reorder", column := stripId src.id,
            oldIndex := some (i : Int), newIndex := some (j : Int),
            source := none, destinationIndex := none } =
          some (reorderedColumns sel (i : Int) (j : Int)))
    ∧ (src.sourceZone = "available" →
      jsIndexOf (stripId tid) sel = (t : Int) →
      onDrop sel src (some { id := some tid, type := some "sortable-item",
                             sourceZone := dsz, zoneId := none }) =
        Except.ok (some { type := "insert", column := stripId src.id,
                          oldIndex := none, newIndex := none,
                          source := some "available",
                          destinationIndex := some (t : Int) })
      ∧ recomputeSelected sel
          { type := "insert", column := stripId src.id, oldIndex := none,
            newIndex := none, source := some "available",
            destinationIndex := some (t : Int) } =
          some (newSelectedColumns sel (stripId src.id) (t : Int))) := by
  constructor
  · intro hz hne hi hj
    constructor
    · have hio : itemOutcome sel (stripId src.id) src.sourceZone (stripId tid) =
          some { type := "reorder", column := stripId src.id,
                 oldIndex := some (i : Int), newIndex := some (j : Int),
                 source := none, destinationIndex := none } := by
        rw [hz]
        exact itemOutcome_reorder hne hi hj
      exact onDrop_item_some hio
    · rfl
  · intro hz ht
    constructor
    · have hio : itemOutcome sel (stripId src.id) src.sourceZone (stripId tid) =
          some { type := "insert", column := stripId src.id, oldIndex := none,
                 newIndex := none, source := some "available",
                 destinationIndex := some (t : Int) } := by
        rw [hz]
        exact itemOutcome_insert ht
      exact onDrop_item_some hio
    · rfl

/-- C4 witness: both branches at the two concrete scenarios. -/
theorem c4_witness :
    (onDrop ["A", "B", "C"]
        { id := "draggable-B", sourceZone := "selected", type := "sortable-item" }
        (some { id := some "draggable-A", type := some "sortable-item",
                sourceZone := some "selected", zoneId := none }) =
      Except.ok (some { type := "reorder", column := stripId "draggable-B",
                        oldIndex := some ((1 : Nat) : Int),
                        newIndex := some ((0 : Nat) : Int),
                        source := none, destinationIndex := none })
    ∧ recomputeSelected ["A", "B", "C"]
        { type := "reorder", column := stripId "draggable-B",
          oldIndex := some ((1 : Nat) : Int), newIndex := some ((0 : Nat) : Int),
          source := none, destinationIndex := none } =
        some (reorderedColumns ["A", "B", "C"] ((1 : Nat) : Int) ((0 : Nat) : Int)))
    ∧ (onDrop ["A", "B", "C"]
        { id := "draggable-D", sourceZone := "available", type := "draggable-item" }
        (some { id := some "draggable-B", type := some "sortable-item",
                sourceZone := some "selected", zoneId := none }) =
      Except.ok (some { type := "insert", column := stripId "draggable-D",
                        oldIndex := none, newIndex := none,
                        source := some "available",
                        destinationIndex := some ((1 : Nat) : Int) })
    ∧ recomputeSelected ["A", "B", "C"]
        { type := "insert", column := stripId "draggable-D", oldIndex := none,
          newIndex := none, source := some "available",
          destinationIndex := some ((1 : Nat) : Int) } =
        some (newSelectedColumns ["A", "B", "C"] (stripId "draggable-D")
          ((1 : Nat) : Int))) :=
  ⟨(c4_payload_descriptor_only ["A", "B", "C"]
      { id := "draggable-B", sourceZone := "selected", type := "sortable-item" }
      "draggable-A" (some "selected") 1 0 0).1 rfl (by decide) (by decide)
      (by decide),
   (c4_payload_descriptor_only ["A", "B", "C"]
      { id := "draggable-D", sourceZone := "available", type := "draggable-item" }
      "draggable-B" (some "selected") 0 0 1).2 rfl (by decide)⟩

/-- C6 (amended): whenever the target descriptor carries a non-empty
`zoneId` and the item-level rules emitted nothing — either because the
descriptor is not item-typed, or because it is item-typed (with an id) but
the guards failed, e.g. `indexOf` returned not-found — the classifier
emits `move(columnName, sourceZone)`. -/
theorem c6_zone_fallback (sel : List String) (src : DragData)
    (d : DropTargetData) (z : String)
    (hzid : d.zoneId = some z) (hz : z ≠ "")
    (h : d.type ≠ some "sortable-item" ∨
      ∃ tid, d.id = some tid ∧
        itemOutcome sel (stripId src.id) src.sourceZone (stripId tid) = none) :
    onDrop sel src (some d) =
      Except.ok (some { type := "move", column := stripId src.id,
                        oldIndex := none, newIndex := none,
                        source := some src.sourceZone,
                        destinationIndex := none }) := by
  rcases h with h | ⟨tid, hid, hio⟩
  · simp only [onDrop]
    rw [if_neg h, hzid, zoneOutcome_move hz]
  · by_cases htype : d.type = some "sortable-item"
    · simp only [onDrop]
      rw [if_pos htype, hid]
      simp only [hio]
      rw [hzid, zoneOutcome_move hz]
    · simp only [onDrop]
      rw [if_neg htype, hzid, zoneOutcome_move hz]

/-- C6 witness: an item-typed drop whose reorder guard fails on `indexOf`
(dragged column absent from `selected`) still reaches the zone check and
yields a move. -/
theorem c6_witness :
    ("selected-droppable" : String) ≠ ""
    ∧ itemOutcome ["A"] (stripId "draggable-X") "selected" (stripId "draggable-A") =
        none
    ∧ onDrop ["A"]
        { id := "draggable-X", sourceZone := "selected", type := "sortable-item" }
        (some { id := some "draggable-A", type := some "sortable-item",
                sourceZone := some "selected",
                zoneId := some "selected-droppable" }) =
      Except.ok (some { type := "move", column := stripId "draggable-X",
                        oldIndex := none, newIndex := none,
                        source := some "selected", destinationIndex := none }) :=
  ⟨by decide, by decide,
   c6_zone_fallback ["A"]
     { id := "draggable-X", sourceZone := "selected", type := "sortable-item" }
     { id := some "draggable-A", type := some "sortable-item",
       sourceZone := some "selected", zoneId := some "selected-droppable" }
     "selected-droppable" rfl (by decide)
     (Or.inr ⟨"draggable-A", rfl, by decide⟩)⟩

/-- C6 counterexample: the claim asks only that `zoneId` be set, but
JavaScript truthiness makes the zone check fail on the empty string: with
`zoneId` present and equal to `""` the handler emits no operation instead
of a move. -/
theorem c6_counterexample :
    onDrop ["A"]
        { id := "draggable-A", sourceZone := "selected", type := "draggable-item" }
        (some { id := none, type := none, sourceZone := none, zoneId := some "" }) =
      Except.ok none
    ∧ (Except.ok (none : Option DragEndPayload) :
        Except String (Option DragEndPayload)) ≠
      Except.ok (some { type := "move", column := "A", oldIndex := none,
                        newIndex := none, source := some "selected",
                        destinationIndex := none }) :=
  ⟨rfl, by simp⟩

/-- C7: classification never mutates the host's collections.  At the store
level, `reorder` and the insert branch allocate a fresh array
(`Array.from` / spread) and splice only that copy: the result lives in a
new cell, the input cell is bit-for-bit unchanged, and the new cell holds
exactly the pure-function values used throughout this development. -/
theorem c7_frame {α : Type} (σ : Store α) (r : Nat) (hr : r < σ.length)
    (i j t : Nat) (c : α) :
    ((reorderSt σ r i j).2 ≠ r
      ∧ readAt (reorderSt σ r i j).1 r = readAt σ r
      ∧ readAt (reorderSt σ r i j).1 (reorderSt σ r i j).2 =
          reorder (readAt σ r) i j)
    ∧ ((insertSt σ r t c).2 ≠ r
      ∧ readAt (insertSt σ r t c).1 r = readAt σ r
      ∧ readAt (insertSt σ r t c).1 (insertSt σ r t c).2 =
          spliceInsert (readAt σ r) t [c]) := by
  have hne : σ.length ≠ r := by omega
  have hlen1 : σ.length < (σ ++ [σ.getD r []]).length := by
    simp [List.length_append]
  have hL : (σ ++ [σ.getD r []]).getD σ.length [] = σ.getD r [] :=
    readAt_append_self σ (σ.getD r [])
  refine ⟨⟨hne, ?_, ?_⟩, hne, ?_, ?_⟩
  · simp only [reorderSt, arrayFrom, spliceAt]
    rw [readAt_set_ne hne, readAt_set_ne hne, readAt_append_one hr]
  · simp only [reorderSt, arrayFrom, spliceAt, hL]
    have hv1 : ((σ ++ [σ.getD r []]).set σ.length
        ((σ.getD r []).take i ++ [] ++ (σ.getD r []).drop (i + 1))).getD
        σ.length [] =
        (σ.getD r []).take i ++ [] ++ (σ.getD r []).drop (i + 1) :=
      readAt_set_self hlen1
        ((σ.getD r []).take i ++ [] ++ (σ.getD r []).drop (i + 1))
    simp only [hv1]
    rw [readAt_set_self (by rw [List.length_set]; exact hlen1)]
    simp [readAt, reorder, spliceInsert, spliceRest, spliceRemoved]
  · simp only [insertSt, arrayFrom, spliceAt]
    rw [readAt_set_ne hne, readAt_append_one hr]
  · simp only [insertSt, arrayFrom, spliceAt, hL]
    rw [readAt_set_self hlen1]
    simp [readAt, spliceInsert]

/-- C7 witness: one cell holding `[A,B,C]`; both operations leave it
unchanged and park their results in a fresh cell. -/
theorem c7_witness :
    0 < ([[("A" : String), "B", "C"]] : Store String).length
    ∧ (((reorderSt ([[("A" : String), "B", "C"]] : Store String) 0 1 0).2 ≠ 0
      ∧ readAt (reorderSt ([[("A" : String), "B", "C"]] : Store String) 0 1 0).1 0 =
          readAt ([[("A" : String), "B", "C"]] : Store String) 0
      ∧ readAt (reorderSt ([[("A" : String), "B", "C"]] : Store String) 0 1 0).1
          (reorderSt ([[("A" : String), "B", "C"]] : Store String) 0 1 0).2 =
          reorder (readAt ([[("A" : String), "B", "C"]] : Store String) 0) 1 0)
    ∧ (((insertSt ([[("A" : String), "B", "C"]] : Store String) 0 1 "D").2 ≠ 0)
      ∧ readAt (insertSt ([[("A" : String), "B", "C"]] : Store String) 0 1 "D").1 0 =
          readAt ([[("A" : String), "B", "C"]] : Store String) 0
      ∧ readAt (insertSt ([[("A" : String), "B", "C"]] : Store String) 0 1 "D").1
          (insertSt ([[("A" : String), "B", "C"]] : Store String) 0 1 "D").2 =
          spliceInsert (readAt ([[("A" : String), "B", "C"]] : Store String) 0) 1
            ["D"])) :=
  ⟨by decide, c7_frame [["A", "B", "C"]] 0 (by decide) 1 0 1 "D"⟩

/-- C8: the completion source is a pure function over the static keyword
table: it returns null exactly when no word matched before the cursor or
the match is empty and completion was not explicitly requested; otherwise
it returns the matched word's start position, the entire fixed keyword
table, and the `validFor` pattern. -/
theorem c8_completion_source (ctx : CompletionContext) :
    (myCompletionSource ctx = none ↔
      ctx.wordBefore = none ∨
        ∃ w, ctx.wordBefore = some w ∧ w.fromPos = w.toPos ∧
          ctx.explicit = false)
    ∧ (∀ r, myCompletionSource ctx = some r →
        (∃ w, ctx.wordBefore = some w ∧ r.fromPos = w.fromPos)
        ∧ r.options = keywords ∧ r.validFor = "^\\w*$") := by
  obtain ⟨wb, ex⟩ := ctx
  cases wb with
  | none =>
    constructor
    · simp [myCompletionSource]
    · intro r hr
      simp [myCompletionSource] at hr
  | some w =>
    constructor
    · constructor
      · intro h
        by_cases hw : w.fromPos = w.toPos ∧ ex = false
        · exact Or.inr ⟨w, rfl, hw.1, hw.2⟩
        · exact absurd h (by simp [myCompletionSource, hw])
      · intro h
        rcases h with h | ⟨w', hw', h1, h2⟩
        · exact absurd h (by simp)
        · injection hw' with hww
          subst hww
          simp only at h2
          simp [myCompletionSource, h1, h2]
    · intro r hr
      simp only [myCompletionSource] at hr
      split_ifs at hr
      all_goals injection hr with hr'
      all_goals subst hr'
      all_goals exact ⟨⟨w, rfl, rfl⟩, rfl, rfl⟩

/-- C8 witness: a non-empty word match yields the full table anchored at
the match start. -/
theorem c8_witness :
    (∃ w, ({ wordBefore := some { fromPos := 2, toPos := 5 }, explicit := false } :
        CompletionContext).wordBefore = some w ∧
      ({ fromPos := 2, options := keywords, validFor := "^\\w*$" } :
        CompletionResult).fromPos = w.fromPos)
    ∧ ({ fromPos := 2, options := keywords, validFor := "^\\w*$" } :
        CompletionResult).options = keywords
    ∧ ({ fromPos := 2, options := keywords, validFor := "^\\w*$" } :
        CompletionResult).validFor = "^\\w*$" :=
  (c8_completion_source
    { wordBefore := some { fromPos := 2, toPos := 5 }, explicit := false }).2
    { fromPos := 2, options := keywords, validFor := "^\\w*$" } rfl

end TrialCurator
